import Mathlib

/-!
Verification of the FTP protocol client in
`custom_components/ftp_browser/ftp_client.py`.

The pure, observable behaviour of the client (string parsing of replies,
the directory-listing grammar, the command sequencing of `login`,
`list_directory`, `download_file`, `get_file_size` and `close`) is embedded
as executable Lean definitions.  Socket I/O is represented by explicit
inputs: each control-channel reply the code reads becomes a `String`
argument, the data channel becomes the list of chunks `recv` yields before
end-of-stream, and an I/O failure becomes a `Bool` flag.  Exceptions are
made explicit with `Except`; a Python `try/except` block becomes a `match`
on the `Except` value.
-/

namespace FTPClient

/-- Python's whitespace set for `str.split` and `str.strip`
(space, tab, newline, carriage return, vertical tab, form feed). -/
def pyIsSpace (c : Char) : Bool :=
  c == ' ' || c == '\t' || c == '\n' || c == '\r' || c == '\x0b' || c == '\x0c'

/-- `listIsPrefix pre l` is true when `pre` is a prefix of `l`. -/
def listIsPrefix : List Char → List Char → Bool
  | [], _ => true
  | _ :: _, [] => false
  | a :: as, b :: bs => a == b && listIsPrefix as bs

/-- Python `s.startswith(pre)`. -/
def pyStartsWith (s pre : String) : Bool :=
  listIsPrefix pre.toList s.toList

/-- Python `s.endswith(suf)`. -/
def pyEndsWith (s suf : String) : Bool :=
  listIsPrefix suf.toList.reverse s.toList.reverse

/-- Strip leading and trailing whitespace from a character list. -/
def pyStripList (cs : List Char) : List Char :=
  ((cs.dropWhile pyIsSpace).reverse.dropWhile pyIsSpace).reverse

/-- Python `s.strip()`. -/
def pyStrip (s : String) : String :=
  String.mk (pyStripList s.toList)

/-- Helper for `pySplit`: scan the characters, accumulating the current
token in reverse in `acc`; whitespace ends the current token. -/
def pySplitAux : List Char → List Char → List String
  | [], acc => if acc = [] then [] else [String.mk acc.reverse]
  | c :: rest, acc =>
    if pyIsSpace c then
      if acc = [] then pySplitAux rest []
      else String.mk acc.reverse :: pySplitAux rest []
    else pySplitAux rest (c :: acc)

/-- Python `s.split()` with no argument: split on runs of whitespace,
discarding empty tokens. -/
def pySplit (s : String) : List String :=
  pySplitAux s.toList []

/-- Helper for `pySplitlines`: split on `\r\n`, `\n` and `\r`. -/
def pySplitlinesAux : List Char → List Char → List String
  | [], acc => if acc = [] then [] else [String.mk acc.reverse]
  | '\r' :: '\n' :: rest, acc => String.mk acc.reverse :: pySplitlinesAux rest []
  | '\n' :: rest, acc => String.mk acc.reverse :: pySplitlinesAux rest []
  | '\r' :: rest, acc => String.mk acc.reverse :: pySplitlinesAux rest []
  | c :: rest, acc => pySplitlinesAux rest (c :: acc)

/-- Python `s.splitlines()` (restricted to the line terminators FTP
servers emit: `\r\n`, `\n`, `\r`). -/
def pySplitlines (s : String) : List String :=
  pySplitlinesAux s.toList []

/-- Python `' '.join` / `sep.join(parts)`. -/
def pyJoin (sep : String) : List String → String
  | [] => ""
  | [x] => x
  | x :: rest => x ++ sep ++ pyJoin sep rest

/-- Python `s[n:]`: drop the first `n` characters. -/
def pyDrop (s : String) (n : Nat) : String :=
  String.mk (s.toList.drop n)

/-- Decimal value of a digit list (most significant first). -/
def digitsToNat (cs : List Char) : Nat :=
  cs.foldl (fun a c => a * 10 + (c.toNat - 48)) 0

/-- `int()` applied to a string of pure decimal digits (the regex groups
of the passive-mode reply are such strings). -/
def strToNat (s : String) : Nat :=
  digitsToNat s.toList

/-- Digits part of Python `int(str)`: a nonempty run of decimal digits. -/
def pyIntDigits (cs : List Char) : Option Nat :=
  if cs ≠ [] ∧ cs.all Char.isDigit then some (digitsToNat cs) else none

/-- Signed part of Python `int(str)`: an optional sign then digits. -/
def pyIntList : List Char → Option Int
  | '-' :: rest => (pyIntDigits rest).map (fun n => -(n : Int))
  | '+' :: rest => (pyIntDigits rest).map (fun n => (n : Int))
  | cs => (pyIntDigits cs).map (fun n => (n : Int))

/-- Python `int(s)` on a decimal string: surrounding whitespace is
accepted, then an optional sign and a nonempty digit run; anything else
raises `ValueError`, modelled as `none`. -/
def pyInt (s : String) : Option Int :=
  pyIntList (pyStripList s.toList)

/-- Python `os.path.join(a, b)` for POSIX paths (the cases reachable in
`list_directory`). -/
def osPathJoin (a b : String) : String :=
  if pyStartsWith b "/" = true then b
  else if a = "" then b
  else if pyEndsWith a "/" = true then a ++ b
  else a ++ "/" ++ b

/-! ## Passive-mode reply parsing (`_enter_passive_mode`, lines 200–230)

The code runs `re.search(r'(\d+),(\d+),(\d+),(\d+),(\d+),(\d+)', response)`.
For this pattern, greedy matching admits no useful backtracking: each of
the first five groups must be a maximal digit run immediately followed by
a comma, and the sixth group is a maximal digit run.  `re.search` tries
start positions left to right, so the search is: at each position of the
string, attempt the deterministic six-group match, and return the first
success. -/

/-- Match one regex group `(\d+),`: a maximal nonempty digit run followed
by a comma; return the digits and the rest after the comma. -/
def matchNumComma (cs : List Char) : Option (String × List Char) :=
  let d := cs.takeWhile Char.isDigit
  if d = [] then none
  else
    match cs.dropWhile Char.isDigit with
    | ',' :: rest => some (String.mk d, rest)
    | _ => none

/-- Match the final regex group `(\d+)`: a maximal nonempty digit run. -/
def matchNum (cs : List Char) : Option String :=
  let d := cs.takeWhile Char.isDigit
  if d = [] then none else some (String.mk d)

/-- Attempt the whole pattern `(\d+),(\d+),(\d+),(\d+),(\d+),(\d+)`
anchored at the head of `cs`. -/
def matchSixAt (cs : List Char) :
    Option (String × String × String × String × String × String) := do
  let (g1, r1) ← matchNumComma cs
  let (g2, r2) ← matchNumComma r1
  let (g3, r3) ← matchNumComma r2
  let (g4, r4) ← matchNumComma r3
  let (g5, r5) ← matchNumComma r4
  let g6 ← matchNum r5
  pure (g1, g2, g3, g4, g5, g6)

/-- `re.search` for the six-number pattern: try every start position from
the left and return the first match. -/
def searchSix : List Char →
    Option (String × String × String × String × String × String)
  | [] => none
  | c :: rest =>
    match matchSixAt (c :: rest) with
    | some g => some g
    | none => searchSix rest

/-- The parsing part of `_enter_passive_mode` (lines 203–219): require a
`227` reply, find the six comma-separated numbers, build the dotted IP
from the first four and the port as `(p1 << 8) + p2`. -/
def parsePasv (response : String) : Option (String × Nat) :=
  if pyStartsWith response "227" = true then
    match searchSix response.toList with
    | some (h1, h2, h3, h4, p1, p2) =>
      some (h1 ++ "." ++ h2 ++ "." ++ h3 ++ "." ++ h4,
            (strToNat p1) <<< 8 + strToNat p2)
    | none => none
  else none

/-- `_enter_passive_mode` (lines 200–230): parse the `227` reply, then
open the data connection; a connect failure (modelled by
`connectOk = false`) is caught and yields no endpoint. -/
def enterPassiveMode (response : String) (connectOk : Bool) :
    Option (String × Nat) :=
  match parsePasv response with
  | none => none
  | some ep => if connectOk then some ep else none

/-! ## Directory-listing grammar (`list_directory`, lines 76–153) -/

/-- One parsed listing entry (the dict built at lines 139–145). -/
structure DirEntry where
  name : String
  path : String
  ftype : String
  size : Int
  permissions : String
deriving DecidableEq

/-- Parse one listing line (lines 116–147).  Blank lines are skipped;
the line is tokenized on whitespace; fewer than 9 tokens skips the line;
`int(parts[4])` raising skips the line (the surrounding `try`); names
`.` and `..` are skipped; otherwise an entry is built with
`perms = parts[0]`, `size = int(parts[4])`,
`filename = ' '.join(parts[8:])`, kind directory iff `perms` starts with
`d`, and path joined from the listing path (root special-cased). -/
def parseListLine (path line : String) : Option DirEntry :=
  if pyStrip line = "" then none
  else if (pySplit line).length < 9 then none
  else
    match pyInt ((pySplit line).getD 4 "") with
    | none => none
    | some sz =>
      if pyJoin " " ((pySplit line).drop 8) = "." ∨
         pyJoin " " ((pySplit line).drop 8) = ".." then none
      else
        some { name := pyJoin " " ((pySplit line).drop 8),
               path := if path = "/" then
                         "/" ++ pyJoin " " ((pySplit line).drop 8)
                       else osPathJoin path (pyJoin " " ((pySplit line).drop 8)),
               ftype := if pyStartsWith ((pySplit line).getD 0 "") "d" = true
                        then "directory" else "file",
               size := sz,
               permissions := (pySplit line).getD 0 "" }

/-- The per-line loop of `list_directory`: parse each line, skipping the
ones `parseListLine` rejects. -/
def parseLines (path : String) (lines : List String) : List DirEntry :=
  lines.filterMap (parseListLine path)

/-- The FTP commands the client can send on the control channel. -/
inductive Cmd where
  | user (name : String)
  | pass (pw : String)
  | typeI
  | cwd (dir : String)
  | pasv
  | list
  | retr (p : String)
  | size (p : String)
  | quit
  | noop
deriving DecidableEq

/-- Wire text of a command (what `_send_command` writes before `\r\n`). -/
def cmdText : Cmd → String
  | .user n => "USER " ++ n
  | .pass p => "PASS " ++ p
  | .typeI => "TYPE I"
  | .cwd d => "CWD " ++ d
  | .pasv => "PASV"
  | .list => "LIST"
  | .retr p => "RETR " ++ p
  | .size p => "SIZE " ++ p
  | .quit => "QUIT"
  | .noop => "NOOP"

/-- `list_directory` (lines 76–153).  Inputs: the reply to `CWD` (read
only when `path ≠ "/"`), the reply to `PASV` together with the data
connection outcome, the reply to `LIST`, the decoded bytes read from the
data socket, and the completion reply (read at line 110 but only logged).
Output: the parsed entries and the commands sent on the control channel. -/
def list_directory (path cwdReply pasvReply : String) (connectOk : Bool)
    (listReply listingData _compReply : String) :
    List DirEntry × List Cmd :=
  if path ≠ "/" ∧ ¬ pyStartsWith cwdReply "250" = true then
    ([], [Cmd.cwd path])
  else
    match enterPassiveMode pasvReply connectOk with
    | none => ([], (if path ≠ "/" then [Cmd.cwd path] else []) ++ [Cmd.pasv])
    | some _ =>
      if ¬ (pyStartsWith listReply "150" = true ∨
            pyStartsWith listReply "125" = true) then
        ([], (if path ≠ "/" then [Cmd.cwd path] else []) ++
             [Cmd.pasv, Cmd.list])
      else
        (parseLines path (pySplitlines listingData),
         (if path ≠ "/" then [Cmd.cwd path] else []) ++
         [Cmd.pasv, Cmd.list])

/-- Result of `login`: success flag and the commands sent. -/
structure LoginResult where
  ok : Bool
  sent : List Cmd
deriving DecidableEq

/-- `login` (lines 45–74).  Sends `USER`; a reply that is neither `230`
nor `331` fails; on `331` sends `PASS` and requires `230`; then sends
`TYPE I` and requires `200`. -/
def login (u p userReply passReply typeReply : String) : LoginResult :=
  if ¬ (pyStartsWith userReply "230" = true ∨
        pyStartsWith userReply "331" = true) then
    { ok := false, sent := [Cmd.user u] }
  else if pyStartsWith userReply "331" = true then
    if ¬ pyStartsWith passReply "230" = true then
      { ok := false, sent := [Cmd.user u, Cmd.pass p] }
    else if ¬ pyStartsWith typeReply "200" = true then
      { ok := false, sent := [Cmd.user u, Cmd.pass p, Cmd.typeI] }
    else
      { ok := true, sent := [Cmd.user u, Cmd.pass p, Cmd.typeI] }
  else if ¬ pyStartsWith typeReply "200" = true then
    { ok := false, sent := [Cmd.user u, Cmd.typeI] }
  else
    { ok := true, sent := [Cmd.user u, Cmd.typeI] }

/-- Result of `download_file`: the chunks yielded and whether the data
socket ended up closed. -/
structure DownloadResult where
  chunks : List (List Nat)
  dataSocketClosed : Bool
deriving DecidableEq

/-- `download_file` (lines 155–186), after a successful passive-mode
negotiation (the early `return` when no data socket exists yields no
chunks before any socket is opened).  The data socket is modelled as the
list of nonempty chunks `recv(8192)` yields before end-of-stream.  The
code requires the `RETR` reply to start with `150` (line 166); otherwise
it closes the data socket and ends with no chunks. -/
def download_file (retrReply : String) (data : List (List Nat)) :
    DownloadResult :=
  if pyStartsWith retrReply "150" = true then
    { chunks := data, dataSocketClosed := true }
  else
    { chunks := [], dataSocketClosed := true }

/-- Session state: the owned control-socket handle (lines 19). -/
structure Session where
  control_socket : Option Unit
deriving DecidableEq

/-- `_send_command` (lines 232–238): raises `ConnectionError` when no
control socket is open; `ioFails` models any socket error from
`sendall`/`recv`. -/
def send_command (sock : Option Unit) (ioFails : Bool) (_c : Cmd) :
    Except String Unit :=
  if sock = none then Except.error "Not connected to FTP server"
  else if ioFails then Except.error "socket error"
  else Except.ok ()

/-- Result of `close`: the new session state and whether the control
socket was closed. -/
structure CloseResult where
  session : Session
  socketClosed : Bool
deriving DecidableEq

/-- `close` (lines 264–278).  When no control socket is open, nothing
happens.  Otherwise `QUIT` is sent and its reply read inside a
`try/except: pass`; the `finally` block closes the socket and clears the
handle regardless of whether the `QUIT` exchange raised. -/
def close (s : Session) (quitFails : Bool) : Except String CloseResult :=
  match s.control_socket with
  | none => Except.ok { session := s, socketClosed := false }
  | some _ =>
    match send_command s.control_socket quitFails Cmd.quit with
    | Except.ok _ =>
      Except.ok { session := { control_socket := none }, socketClosed := true }
    | Except.error _ =>
      Except.ok { session := { control_socket := none }, socketClosed := true }

/-- The body of `get_file_size`'s `try` block (lines 191–196): send
`SIZE path` (which can raise), read the reply (an I/O failure there is
also covered by `ioFails`); on a `213` reply parse `response[4:].strip()`
with `int` (which can raise `ValueError`); any other reply returns
`None`. -/
def get_file_size_try (s : Session) (ioFails : Bool) (path reply : String) :
    Except String (Option Int) :=
  match send_command s.control_socket ioFails (Cmd.size path) with
  | Except.error e => Except.error e
  | Except.ok _ =>
    if pyStartsWith reply "213" = true then
      match pyInt (pyStrip (pyDrop reply 4)) with
      | some n => Except.ok (some n)
      | none => Except.error "ValueError"
    else Except.ok none

/-- `get_file_size` (lines 188–198): the `try` body wrapped in
`except Exception: return None`. -/
def get_file_size (s : Session) (ioFails : Bool) (path reply : String) :
    Option Int :=
  match get_file_size_try s ioFails path reply with
  | Except.ok v => v
  | Except.error _ => none

/-! ## Helper lemmas -/

/-- Splitting a list of pure whitespace yields no tokens. -/
theorem pySplitAux_all_space (cs : List Char)
    (h : ∀ c ∈ cs, pyIsSpace c = true) : pySplitAux cs [] = [] := by
  induction cs with
  | nil => rfl
  | cons c rest ih =>
    have hc : pyIsSpace c = true := h c (by simp)
    simp only [pySplitAux, hc, if_true]
    exact ih (fun x hx => h x (by simp [hx]))

/-- If the stripped string is empty, every character is whitespace. -/
theorem all_space_of_strip_empty (s : String) (h : pyStrip s = "") :
    ∀ c ∈ s.toList, pyIsSpace c = true := by
  have h0 : pyStripList s.toList = [] := by
    have h2 := congrArg String.data h
    simpa [pyStrip] using h2
  unfold pyStripList at h0
  have h1 : (s.toList.dropWhile pyIsSpace).reverse.dropWhile pyIsSpace = [] := by
    simpa using h0
  have h2 : ∀ c ∈ (s.toList.dropWhile pyIsSpace).reverse, pyIsSpace c = true :=
    List.dropWhile_eq_nil_iff.mp h1
  have h3 : ∀ c ∈ s.toList.dropWhile pyIsSpace, pyIsSpace c = true :=
    fun c hc => h2 c (List.mem_reverse.mpr hc)
  intro c hc
  rw [← List.takeWhile_append_dropWhile pyIsSpace s.toList] at hc
  rcases List.mem_append.mp hc with hl | hr
  · exact List.mem_takeWhile_imp hl
  · exact h3 c hr

/-- A string that strips to empty splits to no tokens. -/
theorem pySplit_of_strip_empty (s : String) (h : pyStrip s = "") :
    pySplit s = [] :=
  pySplitAux_all_space s.toList (all_space_of_strip_empty s h)

/-- A string with at least one token does not strip to empty. -/
theorem strip_ne_empty_of_split_ne_nil (s : String) (h : pySplit s ≠ []) :
    pyStrip s ≠ "" :=
  fun he => h (pySplit_of_strip_empty s he)

/-- A parsed listing entry never carries the name `.` or `..`
(the `continue` at lines 130–131). -/
theorem parseListLine_name_not_dot (path line : String) (e : DirEntry)
    (h : parseListLine path line = some e) : e.name ≠ "." ∧ e.name ≠ ".." := by
  simp only [parseListLine] at h
  split at h
  · exact absurd h (by simp)
  · split at h
    · exact absurd h (by simp)
    · split at h
      · exact absurd h (by simp)
      · split at h
        · exact absurd h (by simp)
        · rename_i hguard
          injection h with h
          subst h
          push_neg at hguard
          exact hguard

/-! ## Claim theorems -/

/-- C1: for every `227` reply in which the six-number search succeeds
with groups `h1,h2,h3,h4,p1,p2`, the parsed endpoint is the dotted join
`h1.h2.h3.h4` with port `p1*256+p2`; a reply that does not start with
`227`, or in which fewer than six comma-separated numbers are found,
yields no endpoint. -/
theorem pasv_endpoint (r h1 h2 h3 h4 p1 p2 : String)
    (hs : pyStartsWith r "227" = true)
    (hm : searchSix r.toList = some (h1, h2, h3, h4, p1, p2)) :
    parsePasv r = some (h1 ++ "." ++ h2 ++ "." ++ h3 ++ "." ++ h4,
      strToNat p1 * 256 + strToNat p2) ∧
    (∀ r2 : String, pyStartsWith r2 "227" = false → parsePasv r2 = none) ∧
    (∀ r3 : String, searchSix r3.toList = none → parsePasv r3 = none) := by
  refine ⟨?_, ?_, ?_⟩
  · simp only [parsePasv, hs, if_true, hm, Nat.shiftLeft_eq]
  · intro r2 h
    simp [parsePasv, h]
  · intro r3 h
    have h' : searchSix r3.data = none := h
    by_cases h2 : pyStartsWith r3 "227" = true <;> simp [parsePasv, h, h', h2]

/-- C1 witness: the spec's example reply parses to `192.168.1.10`,
port `51215`. -/
theorem pasv_endpoint_witness :
    parsePasv "227 Entering Passive Mode (192,168,1,10,200,15)" =
      some ("192.168.1.10", 51215) := by
  have h := (pasv_endpoint "227 Entering Passive Mode (192,168,1,10,200,15)"
    "192" "168" "1" "10" "200" "15" (by decide) (by decide)).1
  simpa using h

/-- C2 counterexample: a listing line with at least 9 whitespace tokens
for which the parser produces no entry (its size token `x` is not an
integer), refuting the claim that every such line yields an entry. -/
theorem listing_line_counterexample :
    9 ≤ (pySplit "-rw-r--r-- 1 user group x Jan 1 00:00 notes.txt").length ∧
    parseListLine "/" "-rw-r--r-- 1 user group x Jan 1 00:00 notes.txt" =
      none := by
  decide

/-- C2 (amended): for every listing line with at least 9 whitespace
tokens whose token 4 parses as an integer and whose rejoined name
(tokens 8 onward, joined with single spaces) is not `.` or `..`, the
parser produces an entry whose kind is directory exactly when token 0
starts with `d` (file otherwise), whose size is the integer value of
token 4, and whose name is the rejoined tokens; in particular the spec's
example line parses to kind=file, size=4096, name=report.pdf. -/
theorem listing_line_fields (path line : String) (parts : List String)
    (n : Int) (hp : pySplit line = parts) (hlen : 9 ≤ parts.length)
    (hint : pyInt (parts.getD 4 "") = some n)
    (hd1 : pyJoin " " (parts.drop 8) ≠ ".")
    (hd2 : pyJoin " " (parts.drop 8) ≠ "..") :
    parseListLine path line = some
      { name := pyJoin " " (parts.drop 8),
        path := if path = "/" then "/" ++ pyJoin " " (parts.drop 8)
                else osPathJoin path (pyJoin " " (parts.drop 8)),
        ftype := if pyStartsWith (parts.getD 0 "") "d" = true
                 then "directory" else "file",
        size := n,
        permissions := parts.getD 0 "" } ∧
    parseListLine "/" "-rw-r--r-- 1 user group 4096 Jan 1 00:00 report.pdf" =
      some { name := "report.pdf", path := "/report.pdf", ftype := "file",
             size := 4096, permissions := "-rw-r--r--" } := by
  constructor
  · have hne : pyStrip line ≠ "" := by
      apply strip_ne_empty_of_split_ne_nil
      rw [hp]
      intro hnil
      rw [hnil] at hlen
      simp at hlen
    have hnl : ¬ (pySplit line).length < 9 := by
      rw [hp]; omega
    have hg : ¬ (pyJoin " " (parts.drop 8) = "." ∨
                 pyJoin " " (parts.drop 8) = "..") := not_or.mpr ⟨hd1, hd2⟩
    have hint2 : pyInt (parts[4]?.getD "") = some n := by
      simpa [List.getD] using hint
    simp [parseListLine, hne, hnl, hp, hint, hint2, hg, hlen]
  · decide

/-- C2 witness: the general field theorem applied to the spec's example
line. -/
theorem listing_line_fields_witness :
    parseListLine "/music" "drwxr-xr-x 2 user group 512 Jan 1 00:00 my albums" =
      some { name := "my albums", path := "/music/my albums",
             ftype := "directory", size := 512,
             permissions := "drwxr-xr-x" } := by
  have h := (listing_line_fields "/music"
    "drwxr-xr-x 2 user group 512 Jan 1 00:00 my albums"
    ["drwxr-xr-x", "2", "user", "group", "512", "Jan", "1", "00:00", "my", "albums"]
    512 (by decide) (by decide) (by decide) (by decide) (by decide)).1
  simpa using h

/-- C3 counterexample: the reply `"213 five"` starts with `213` yet
`get_file_size` returns the absent value (the remainder is not an
integer, so `int` raises and the handler returns `None`), refuting
"present exactly when the reply starts with 213". -/
theorem get_size_counterexample :
    pyStartsWith "213 five" "213" = true ∧
    get_file_size { control_socket := some () } false "f.txt" "213 five" =
      none := by
  decide

/-- C3 (amended): with a live control channel and no I/O failure,
`get_file_size` returns a present value exactly when the reply starts
with `213` and the text after the code and separator (`reply[4:]`,
stripped) parses as an integer, in which case the value is that integer;
a reply with any other leading code yields the absent value. -/
theorem get_size_characterization (path reply : String) :
    (pyStartsWith reply "213" = true →
      get_file_size { control_socket := some () } false path reply =
        pyInt (pyStrip (pyDrop reply 4))) ∧
    (pyStartsWith reply "213" = false →
      get_file_size { control_socket := some () } false path reply = none) := by
  constructor
  · intro h
    simp only [get_file_size, get_file_size_try, send_command]
    cases hint : pyInt (pyStrip (pyDrop reply 4)) <;> simp [h, hint]
  · intro h
    simp [get_file_size, get_file_size_try, send_command, h]

/-- C3 witness: the amended characterization at concrete replies. -/
theorem get_size_characterization_witness :
    get_file_size { control_socket := some () } false "a.mp3" "213 5120" =
      some 5120 ∧
    get_file_size { control_socket := some () } false "a.mp3" "550 denied" =
      none := by
  constructor
  · have h := (get_size_characterization "a.mp3" "213 5120").1 (by decide)
    simpa using h
  · exact (get_size_characterization "a.mp3" "550 denied").2 (by decide)

/-- C4 counterexample: a `125` reply to `RETR` does not start streaming;
`download_file` ends with zero chunks even though data was available,
refuting that `125` is accepted for downloads. -/
theorem download_125_counterexample :
    pyStartsWith "125 Data connection already open" "125" = true ∧
    download_file "125 Data connection already open" [[104, 105]] =
      { chunks := [], dataSocketClosed := true } := by
  decide

/-- C4 (amended): `download_file` accepts only `150` as the
positive-preliminary reply to `RETR` (unlike the listing operation,
which accepts `150` or `125`) and only then streams the data-socket
chunks; a reply with any other leading code — including `125` — ends
the operation with zero chunks produced and the data socket closed. -/
theorem download_requires_150 (reply : String) (data : List (List Nat)) :
    (pyStartsWith reply "150" = true →
      download_file reply data = { chunks := data, dataSocketClosed := true }) ∧
    (pyStartsWith reply "150" = false →
      download_file reply data = { chunks := [], dataSocketClosed := true }) := by
  constructor
  · intro h
    simp [download_file, h]
  · intro h
    simp [download_file, h]

/-- C4 witness: the amended statement at concrete replies. -/
theorem download_requires_150_witness :
    download_file "150 Opening BINARY mode data connection" [[1, 2], [3]] =
      { chunks := [[1, 2], [3]], dataSocketClosed := true } ∧
    download_file "550 Failed to open file" [[1, 2], [3]] =
      { chunks := [], dataSocketClosed := true } := by
  constructor
  · exact (download_requires_150 "150 Opening BINARY mode data connection"
      [[1, 2], [3]]).1 (by decide)
  · exact (download_requires_150 "550 Failed to open file"
      [[1, 2], [3]]).2 (by decide)

/-- C5: for every non-root path, when the `CWD` reply does not start
with `250`, `list_directory` returns an empty listing as a normal
result, having sent only `CWD path` — no `PASV` negotiation and no
`LIST`. -/
theorem cwd_fail_empty (path cwdReply pasvReply : String) (cOk : Bool)
    (listReply listingData compReply : String)
    (hp : path ≠ "/") (hc : pyStartsWith cwdReply "250" = false) :
    list_directory path cwdReply pasvReply cOk listReply listingData
      compReply = ([], [Cmd.cwd path]) ∧
    Cmd.pasv ∉ (list_directory path cwdReply pasvReply cOk listReply
      listingData compReply).2 ∧
    Cmd.list ∉ (list_directory path cwdReply pasvReply cOk listReply
      listingData compReply).2 := by
  have h : list_directory path cwdReply pasvReply cOk listReply listingData
      compReply = ([], [Cmd.cwd path]) := by
    simp [list_directory, hp, hc]
  refine ⟨h, ?_, ?_⟩ <;> rw [h] <;> simp

/-- C5 witness: a concrete failed `CWD`. -/
theorem cwd_fail_empty_witness :
    list_directory "/music" "550 No such directory" "227 (1,2,3,4,5,6)" true
      "150 ok" "ignored" "226" = ([], [Cmd.cwd "/music"]) :=
  (cwd_fail_empty "/music" "550 No such directory" "227 (1,2,3,4,5,6)" true
    "150 ok" "ignored" "226" (by decide) (by decide)).1

/-- C6: a `USER` reply that starts with neither `230` nor `331` makes
`login` fail having sent only `USER`; `PASS` is sent exactly when the
`USER` reply starts with `331`; and in that case a non-`230` reply to
`PASS` also makes `login` fail. -/
theorem login_gate (u p ur pr tr : String) :
    (pyStartsWith ur "230" = false → pyStartsWith ur "331" = false →
      login u p ur pr tr = { ok := false, sent := [Cmd.user u] }) ∧
    (Cmd.pass p ∈ (login u p ur pr tr).sent ↔
      pyStartsWith ur "331" = true) ∧
    (pyStartsWith ur "331" = true → pyStartsWith pr "230" = false →
      (login u p ur pr tr).ok = false) := by
  refine ⟨?_, ?_, ?_⟩
  · intro h1 h2
    simp [login, h1, h2]
  · by_cases h230 : pyStartsWith ur "230" = true <;>
      by_cases h331 : pyStartsWith ur "331" = true <;>
        by_cases hp230 : pyStartsWith pr "230" = true <;>
          by_cases ht : pyStartsWith tr "200" = true <;>
            simp [login, h230, h331, hp230, ht]
  · intro h331 hp
    by_cases h230 : pyStartsWith ur "230" = true <;>
      simp [login, h230, h331, hp]

/-- C6 witness: a `530` reply to `USER` fails without `PASS`, and a
`530` reply to `PASS` after `331` fails. -/
theorem login_gate_witness :
    login "bob" "pw" "530 Login incorrect" "230 ok" "200 ok" =
      { ok := false, sent := [Cmd.user "bob"] } ∧
    ((Cmd.pass "pw" ∈ (login "bob" "pw" "331 Password required" "530 no"
      "200 ok").sent) ↔ pyStartsWith "331 Password required" "331" = true) ∧
    (login "bob" "pw" "331 Password required" "530 no" "200 ok").ok =
      false := by
  refine ⟨?_, ?_, ?_⟩
  · exact (login_gate "bob" "pw" "530 Login incorrect" "230 ok" "200 ok").1
      (by decide) (by decide)
  · exact (login_gate "bob" "pw" "331 Password required" "530 no"
      "200 ok").2.1
  · exact (login_gate "bob" "pw" "331 Password required" "530 no"
      "200 ok").2.2 (by decide) (by decide)

/-- C7: a listing line with fewer than 9 whitespace tokens, or whose
size token (token 4) is not a valid integer, is skipped, and the lines
around it still parse: the listing of any surrounding lines is exactly
the listing without the bad line. -/
theorem bad_line_skipped (path line : String) (l1 l2 : List String)
    (hbad : (pySplit line).length < 9 ∨
            pyInt ((pySplit line).getD 4 "") = none) :
    parseListLine path line = none ∧
    parseLines path (l1 ++ line :: l2) =
      parseLines path l1 ++ parseLines path l2 := by
  have hnone : parseListLine path line = none := by
    by_cases hb : pyStrip line = ""
    · simp [parseListLine, hb]
    · rcases hbad with h | h
      · simp [parseListLine, hb, h]
      · by_cases hlen : (pySplit line).length < 9
        · simp [parseListLine, hb, hlen]
        · have h2 : pyInt ((pySplit line)[4]?.getD "") = none := by
            simpa [List.getD] using h
          simp [parseListLine, hb, hlen, h, h2]
  refine ⟨hnone, ?_⟩
  simp [parseLines, List.filterMap_append, List.filterMap_cons, hnone]

/-- C7 witness: a 2-token line between two well-formed lines is skipped
while both neighbours parse. -/
theorem bad_line_skipped_witness :
    parseListLine "/" "total 12" = none ∧
    parseLines "/" (["-rw-r--r-- 1 u g 5 Jan 1 00:00 a.txt"] ++
      "total 12" :: ["-rw-r--r-- 1 u g 6 Jan 1 00:00 b.txt"]) =
      parseLines "/" ["-rw-r--r-- 1 u g 5 Jan 1 00:00 a.txt"] ++
      parseLines "/" ["-rw-r--r-- 1 u g 6 Jan 1 00:00 b.txt"] :=
  bad_line_skipped "/" "total 12"
    ["-rw-r--r-- 1 u g 5 Jan 1 00:00 a.txt"]
    ["-rw-r--r-- 1 u g 6 Jan 1 00:00 b.txt"] (by decide)

/-- C8: no entry returned by `list_directory` is named `.` or `..`,
for any input. -/
theorem no_dot_in_listing (path cwdReply pasvReply : String) (cOk : Bool)
    (listReply listingData compReply : String) (e : DirEntry)
    (he : e ∈ (list_directory path cwdReply pasvReply cOk listReply
      listingData compReply).1) :
    e.name ≠ "." ∧ e.name ≠ ".." := by
  simp only [list_directory] at he
  split at he
  · simp at he
  · split at he
    · simp at he
    · split at he
      · simp at he
      · simp only [parseLines, List.mem_filterMap] at he
        obtain ⟨line, _, hsome⟩ := he
        exact parseListLine_name_not_dot path line e hsome

/-- C8 witness: a listing whose data contains `.` and `..` lines yields
an entry list in which the surviving entry is not named `.` or `..`. -/
theorem no_dot_in_listing_witness :
    ({ name := "a.txt", path := "/a.txt", ftype := "file", size := 7,
       permissions := "-rw-r--r--" } : DirEntry) ∈
      (list_directory "/" "" "227 (1,2,3,4,5,6)" true "150 ok"
        "drwxr-xr-x 2 u g 0 Jan 1 00:00 .\ndrwxr-xr-x 2 u g 0 Jan 1 00:00 ..\n-rw-r--r-- 1 u g 7 Jan 1 00:00 a.txt"
        "226").1 ∧
    ({ name := "a.txt", path := "/a.txt", ftype := "file", size := 7,
       permissions := "-rw-r--r--" } : DirEntry).name ≠ "." := by
  refine ⟨by decide, ?_⟩
  exact (no_dot_in_listing "/" "" "227 (1,2,3,4,5,6)" true "150 ok"
    "drwxr-xr-x 2 u g 0 Jan 1 00:00 .\ndrwxr-xr-x 2 u g 0 Jan 1 00:00 ..\n-rw-r--r-- 1 u g 7 Jan 1 00:00 a.txt"
    "226" _ (by decide)).1

/-- C9: `close` never raises: it returns normally for every session and
every outcome of the `QUIT` exchange; whenever a control socket was
open it is closed and the handle cleared, and on an already-closed
session `close` is a no-op. -/
theorem close_safe (s : Session) (qf : Bool) :
    (∃ r, close s qf = Except.ok r) ∧
    (∀ r, close s qf = Except.ok r → r.session.control_socket = none ∨
      s.control_socket = none) ∧
    (s.control_socket ≠ none →
      close s qf = Except.ok
        { session := { control_socket := none }, socketClosed := true }) ∧
    (s.control_socket = none →
      close s qf = Except.ok { session := s, socketClosed := false }) := by
  obtain ⟨sock⟩ := s
  cases sock <;> cases qf <;>
    simp [close, send_command]

/-- C9 witness: `close` on an open session with a failing `QUIT`, and on
an already-closed session. -/
theorem close_safe_witness :
    close { control_socket := some () } true =
      Except.ok
        { session := { control_socket := none }, socketClosed := true } ∧
    close { control_socket := none } false =
      Except.ok
        { session := { control_socket := none }, socketClosed := false } := by
  constructor
  · exact (close_safe { control_socket := some () } true).2.2.1 (by decide)
  · exact (close_safe { control_socket := none } false).2.2.2 (by decide)

/-- C10: `get_file_size` is total and never raises: with no open control
channel, with an I/O failure during the exchange, or with a `213` reply
whose remainder is not a valid integer, it returns the absent value. -/
theorem get_file_size_never_raises (s : Session) (io : Bool)
    (path reply : String) :
    (s.control_socket = none → get_file_size s io path reply = none) ∧
    (io = true → get_file_size s io path reply = none) ∧
    (pyStartsWith reply "213" = true →
      pyInt (pyStrip (pyDrop reply 4)) = none →
      get_file_size s io path reply = none) := by
  refine ⟨?_, ?_, ?_⟩
  · intro h
    simp [get_file_size, get_file_size_try, send_command, h]
  · intro h
    obtain ⟨sock⟩ := s
    cases sock <;> simp [get_file_size, get_file_size_try, send_command, h]
  · intro h1 h2
    obtain ⟨sock⟩ := s
    cases sock <;> cases io <;>
      simp [get_file_size, get_file_size_try, send_command, h1, h2]

/-- C10 witness: each failure mode at a concrete input. -/
theorem get_file_size_never_raises_witness :
    get_file_size { control_socket := none } false "f" "213 5" = none ∧
    get_file_size { control_socket := some () } true "f" "213 5" = none ∧
    get_file_size { control_socket := some () } false "f" "213 5MB" =
      none := by
  refine ⟨?_, ?_, ?_⟩
  · exact (get_file_size_never_raises { control_socket := none } false
      "f" "213 5").1 (by decide)
  · exact (get_file_size_never_raises { control_socket := some () } true
      "f" "213 5").2.1 (by decide)
  · exact (get_file_size_never_raises { control_socket := some () } false
      "f" "213 5MB").2.2 (by decide) (by decide)

end FTPClient
